import Mathlib

/-
Shallow embedding of the CSS selector builder from src/06-objects-tasks.js
(`class Builder` and the `cssSelectorBuilder` facade).

A JS selector object `{ type, value, priority }` becomes the `Selector`
structure; `priority` is `Option Nat` because `raw` fragments are added
without a priority (JS `undefined`).  Throwing methods are embedded as
functions returning `Option BuilderError × Builder`: the first component is
`some e` when the JS method throws `new Error(...)` with the corresponding
message, and the second component is the state of the JS object after the
call (the checks run before any mutation, so on a throw it is the input
state).  `stringify` returns the produced string together with the object
state after the call (the JS method clears `this.selectors`).
-/

namespace CssBuilder

/- The values of the JS `type` field: the string literals
   'element', 'id', 'class', 'attr', 'pseudoClass', 'pseudoElement', 'raw'. -/
inductive SelType where
  | element
  | id
  | cls
  | attr
  | pseudoClass
  | pseudoElement
  | raw
deriving DecidableEq

/- One entry of `this.selectors`: the object pushed by `Builder.add`. -/
structure Selector where
  type : SelType
  value : String
  priority : Option Nat
deriving DecidableEq

/- The mutable state of a JS `Builder` instance (the constructor also stores
   the two fixed error-message strings; they are modelled by the
   `BuilderError` constructors below). -/
structure Builder where
  selectors : List Selector
deriving DecidableEq

/- `repeatError`: "Element, id and pseudo-element should not occur more then
   one time inside the selector".
   `orderError`: "Selector parts should be arranged in the following order:
   element, id, class, attribute, pseudo-class, pseudo-element". -/
inductive BuilderError where
  | repeatError
  | orderError
deriving DecidableEq

/- JS `last.priority > priority` where `last.priority` may be `undefined`
   (a raw fragment): `undefined > q` evaluates to `false`. -/
def jsGT : Option Nat → Nat → Bool
  | some p, q => decide (q < p)
  | none, _ => false

/- `add(type, value, priority)`: pushes onto `this.selectors`, returns this. -/
def Builder.add (b : Builder) (t : SelType) (value : String)
    (priority : Option Nat) : Builder :=
  ⟨b.selectors ++ [⟨t, value, priority⟩]⟩

/- `isSelectorExist(type)`: `this.selectors.some((obj) => obj.type === type)`. -/
def Builder.isSelectorExist (b : Builder) (t : SelType) : Bool :=
  b.selectors.any (fun obj => obj.type == t)

/- `isPriorityRight(priority)`: `this.selectors.length !== 0 &&
   this.selectors[this.selectors.length - 1].priority > priority`. -/
def Builder.isPriorityRight (b : Builder) (priority : Nat) : Bool :=
  (b.selectors.length != 0) && jsGT (b.selectors.getLast?.bind Selector.priority) priority

/- `element(value)`. -/
def Builder.element (b : Builder) (value : String) : Option BuilderError × Builder :=
  if b.isSelectorExist .element then ((some .repeatError), b)
  else if b.isPriorityRight 1 then ((some .orderError), b)
  else (none, b.add .element value (some 1))

/- `id(value)`. -/
def Builder.id (b : Builder) (value : String) : Option BuilderError × Builder :=
  if b.isSelectorExist .id then ((some .repeatError), b)
  else if b.isPriorityRight 2 then ((some .orderError), b)
  else (none, b.add .id (("#") ++ value) (some 2))

/- `class(value)` (a Lean keyword, hence the quoted name). -/
def Builder.«class» (b : Builder) (value : String) : Option BuilderError × Builder :=
  if b.isPriorityRight 3 then ((some .orderError), b)
  else (none, b.add .cls ((".") ++ value) (some 3))

/- `attr(value)`. -/
def Builder.attr (b : Builder) (value : String) : Option BuilderError × Builder :=
  if b.isPriorityRight 4 then ((some .orderError), b)
  else (none, b.add .attr (("[") ++ value ++ ("]")) (some 4))

/- `pseudoClass(value)`. -/
def Builder.pseudoClass (b : Builder) (value : String) : Option BuilderError × Builder :=
  if b.isPriorityRight 5 then ((some .orderError), b)
  else (none, b.add .pseudoClass ((":") ++ value) (some 5))

/- `pseudoElement(value)`. -/
def Builder.pseudoElement (b : Builder) (value : String) : Option BuilderError × Builder :=
  if b.isSelectorExist .pseudoElement then ((some .repeatError), b)
  else if b.isPriorityRight 6 then ((some .orderError), b)
  else (none, b.add .pseudoElement (("::") ++ value) (some 6))

/- `raw(value)`: `this.add('raw', value)` — the priority argument is omitted
   in the source, so the pushed object has `priority: undefined`. -/
def Builder.raw (b : Builder) (value : String) : Builder :=
  b.add .raw value none

/- `stringify()`: concatenates the `value` of every selector in order, then
   sets `this.selectors = []` and returns the string.  First component: the
   returned string; second: the object state after the call. -/
def Builder.stringify (b : Builder) : String × Builder :=
  (b.selectors.foldl (fun s sel => s ++ sel.value) (""), ⟨[]⟩)

/- The six ranked append categories of the public API (the facade methods of
   `cssSelectorBuilder` and the corresponding `Builder` methods). -/
inductive Category where
  | element
  | id
  | cls
  | attr
  | pseudoClass
  | pseudoElement
deriving DecidableEq

/- The `type` string each category's method passes to `add`. -/
def Category.selType : Category → SelType
  | .element => .element
  | .id => .id
  | .cls => .cls
  | .attr => .attr
  | .pseudoClass => .pseudoClass
  | .pseudoElement => .pseudoElement

/- The priority each category's method passes to `add`. -/
def Category.rank : Category → Nat
  | .element => 1
  | .id => 2
  | .cls => 3
  | .attr => 4
  | .pseudoClass => 5
  | .pseudoElement => 6

/- The formatted text each category's method stores (the CSS sigil applied
   to the argument), exactly as built by the method bodies in the source. -/
def Category.format : Category → String → String
  | .element, v => v
  | .id, v => ("#") ++ v
  | .cls, v => (".") ++ v
  | .attr, v => ("[") ++ v ++ ("]")
  | .pseudoClass, v => (":") ++ v
  | .pseudoElement, v => ("::") ++ v

/- Whether the category's method begins with an `isSelectorExist` check. -/
def Category.hasRepeatCheck : Category → Bool
  | .element => true
  | .id => true
  | .pseudoElement => true
  | _ => false

/- Dispatch to the method of the given category. -/
def Builder.append (b : Builder) (c : Category) (v : String) :
    Option BuilderError × Builder :=
  match c with
  | .element => b.element v
  | .id => b.id v
  | .cls => b.«class» v
  | .attr => b.attr v
  | .pseudoClass => b.pseudoClass v
  | .pseudoElement => b.pseudoElement v

/- The facade's entry points each create a fresh `Builder` and apply the
   named method: `element: (value) => (new Builder()).element(value)`, etc. -/
def cssSelectorBuilder.element (value : String) : Option BuilderError × Builder :=
  (Builder.mk []).element value

def cssSelectorBuilder.id (value : String) : Option BuilderError × Builder :=
  (Builder.mk []).id value

def cssSelectorBuilder.«class» (value : String) : Option BuilderError × Builder :=
  (Builder.mk []).«class» value

def cssSelectorBuilder.attr (value : String) : Option BuilderError × Builder :=
  (Builder.mk []).attr value

def cssSelectorBuilder.pseudoClass (value : String) : Option BuilderError × Builder :=
  (Builder.mk []).pseudoClass value

def cssSelectorBuilder.pseudoElement (value : String) : Option BuilderError × Builder :=
  (Builder.mk []).pseudoElement value

/- `combine(selector1, combinator, selector2)`:
   `(new Builder()).raw(selector1.stringify()).raw(` ${combinator} `).raw(selector2.stringify())`.
   `stringify` clears its receiver, so the call mutates both operands; the
   result triple is (returned builder, selector1 after, selector2 after). -/
def cssSelectorBuilder.combine (selector1 : Builder) (combinator : String)
    (selector2 : Builder) : Builder × Builder × Builder :=
  let r1 := selector1.stringify
  let r2 := selector2.stringify
  ((((Builder.mk []).raw r1.1).raw ((" ") ++ combinator ++ (" "))).raw r2.1,
    r1.2, r2.2)

/- Running a list of ranked appends in order, stopping at the first error
   (a JS exception aborts the call chain). -/
def appendAll (b : Builder) : List (Category × String) → Option BuilderError × Builder
  | [] => (none, b)
  | (c, v) :: rest =>
    match b.append c v with
    | (some e, b2) => (some e, b2)
    | (none, b2) => appendAll b2 rest

/- The fragment produced by a successful ranked append. -/
def toSel (p : Category × String) : Selector :=
  ⟨p.1.selType, p.1.format p.2, some p.1.rank⟩

theorem selType_inj (c d : Category) : c.selType = d.selType ↔ c = d := by
  cases c <;> cases d <;> decide

/- Each of the six ranked methods follows the same shape: optional repeat
   check, order check, push of the formatted fragment. -/
theorem append_eq (b : Builder) (c : Category) (v : String) :
    b.append c v =
      if c.hasRepeatCheck && b.isSelectorExist c.selType then ((some .repeatError), b)
      else if b.isPriorityRight c.rank then ((some .orderError), b)
      else (none, b.add c.selType (c.format v) (some c.rank)) := by
  cases c <;>
    simp [Builder.append, Builder.element, Builder.id, Builder.«class», Builder.attr,
      Builder.pseudoClass, Builder.pseudoElement, Category.hasRepeatCheck,
      Category.selType, Category.rank, Category.format]

theorem append_ok (b : Builder) (c : Category) (v : String) (b2 : Builder)
    (h : b.append c v = (none, b2)) :
    b.isPriorityRight c.rank = false ∧
    b2 = b.add c.selType (c.format v) (some c.rank) := by
  rw [append_eq] at h
  by_cases h1 : (c.hasRepeatCheck && b.isSelectorExist c.selType) = true
  · simp [h1] at h
  · rw [if_neg (by simpa using h1)] at h
    by_cases h2 : b.isPriorityRight c.rank = true
    · simp [h2] at h
    · rw [if_neg (by simpa using h2)] at h
      exact ⟨by simpa using h2, (Prod.mk.injEq _ _ _ _ ▸ h).2.symm⟩

theorem foldl_append_acc (l : List String) (acc : String) :
    l.foldl (fun s t => s ++ t) acc = acc ++ l.foldl (fun s t => s ++ t) ("") := by
  induction l generalizing acc with
  | nil => simp [String.append_empty]
  | cons x xs ih =>
    simp only [List.foldl_cons]
    rw [ih (acc ++ x), ih (("") ++ x), String.empty_append, String.append_assoc]

theorem stringify_fst (b : Builder) :
    (b.stringify).1 = String.join (b.selectors.map Selector.value) := by
  simp [Builder.stringify, String.join, List.foldl_map]

/- Order on adjacent priorities in a builder produced by the public API: a
   priority-less raw fragment never precedes a ranked one out of order, and
   ranked priorities never decrease. -/
def rankRel : Option Nat → Option Nat → Prop
  | none, _ => True
  | some _, none => False
  | some p, some q => p ≤ q

/- Invariant of builders produced by the public API: priorities along the
   fragment list are `rankRel`-chained (raw fragments first, then ranked
   fragments with non-decreasing priorities). -/
def RankInv (b : Builder) : Prop :=
  (b.selectors.map Selector.priority).Chain' rankRel

/- Builder states reachable through the public `cssSelectorBuilder` API: a
   facade entry point, a successful chained append, `combine`, or
   `stringify` on an already reachable builder. -/
inductive Reachable : Builder → Prop where
  | entry (c : Category) (v : String) (b : Builder) :
      (Builder.mk []).append c v = (none, b) → Reachable b
  | step (b : Builder) (c : Category) (v : String) (b2 : Builder) :
      Reachable b → b.append c v = (none, b2) → Reachable b2
  | comb (a b : Builder) (s : String) : Reachable a → Reachable b →
      Reachable (cssSelectorBuilder.combine a s b).1
  | render (b : Builder) : Reachable b → Reachable (b.stringify).2

/- The rank of the last ranked (priority-bearing) fragment, if any. -/
def Builder.lastRankedPriority (b : Builder) : Option Nat :=
  (b.selectors.filterMap Selector.priority).getLast?

theorem chain'_mem_le_getLast :
    ∀ (l : List (Option Nat)), l.Chain' rankRel → ∀ p : Nat, some p ∈ l →
      ∃ q, l.getLast? = some (some q) ∧ p ≤ q
  | [], _, p, hp => absurd hp (by simp)
  | [x], _, p, hp => by
    rw [List.mem_singleton] at hp
    exact ⟨p, by rw [← hp]; rfl, le_refl p⟩
  | x :: y :: ys, h, p, hp => by
    rw [List.chain'_cons] at h
    have hlast : (x :: y :: ys).getLast? = (y :: ys).getLast? :=
      List.getLast?_cons_cons
    rcases List.mem_cons.mp hp with hx | hrest
    · cases y with
      | none => exact absurd (hx ▸ h.1) (by simp [rankRel])
      | some q2 =>
        have hq2 : p ≤ q2 := by
          have := h.1
          rw [← hx] at this
          exact this
        obtain ⟨q, hq, hle⟩ :=
          chain'_mem_le_getLast ((some q2) :: ys) h.2 q2 (List.mem_cons_self _ _)
        exact ⟨q, hlast ▸ hq, le_trans hq2 hle⟩
    · obtain ⟨q, hq, hle⟩ := chain'_mem_le_getLast (y :: ys) h.2 p hrest
      exact ⟨q, hlast ▸ hq, hle⟩

theorem lastRanked_of_getLast (l : List Selector) (s : Selector) (p : Nat)
    (hl : l.getLast? = some s) (hp : s.priority = some p) :
    (l.filterMap Selector.priority).getLast? = some p := by
  have hne : l ≠ [] := by
    intro h
    rw [h] at hl
    exact Option.noConfusion hl
  have hdl : l.dropLast ++ [l.getLast hne] = l := List.dropLast_append_getLast hne
  have hs : l.getLast hne = s := by
    have h2 := List.getLast?_eq_getLast l hne
    rw [h2] at hl
    exact Option.some_inj.mp hl
  rw [← hdl, List.filterMap_append]
  have : List.filterMap Selector.priority [l.getLast hne] = [p] := by
    simp [List.filterMap, hs, hp]
  rw [this]
  exact List.getLast?_concat _

/- The order check passes whenever the appended rank is at least the rank of
   the last ranked fragment (this needs no invariant: the literal last
   fragment, when ranked, is the last ranked fragment). -/
theorem orderCheck_passes (b : Builder) (r : Nat)
    (h : b.lastRankedPriority.getD 0 ≤ r) :
    b.isPriorityRight r = false := by
  unfold Builder.isPriorityRight
  cases hl : b.selectors.getLast? with
  | none =>
    have : b.selectors = [] := List.getLast?_eq_none_iff.mp hl
    simp [this]
  | some s =>
    cases hp : s.priority with
    | none => simp [hl, hp, jsGT]
    | some p =>
      have hlast := lastRanked_of_getLast _ _ _ hl hp
      rw [Builder.lastRankedPriority] at h
      rw [hlast] at h
      simp only [Option.getD_some] at h
      simp [hl, hp, jsGT]
      omega

/- Under the invariant, the order check fires whenever some ranked fragment
   has rank strictly greater than the appended rank. -/
theorem orderCheck_fires (b : Builder) (hinv : RankInv b) (r : Nat)
    (s : Selector) (hs : s ∈ b.selectors) (p : Nat) (hp : s.priority = some p)
    (hgt : r < p) : b.isPriorityRight r = true := by
  have hmem : some p ∈ b.selectors.map Selector.priority :=
    List.mem_map.mpr ⟨s, hs, hp⟩
  obtain ⟨q, hq, hpq⟩ := chain'_mem_le_getLast _ hinv p hmem
  rw [List.getLast?_map] at hq
  obtain ⟨s0, hs0, hs0p⟩ := Option.map_eq_some'.mp hq
  unfold Builder.isPriorityRight
  have hne : b.selectors ≠ [] := List.ne_nil_of_mem hs
  simp [hs0, hs0p, jsGT, hne, List.length_eq_zero]
  omega

/- Every reachable builder satisfies the rank invariant. -/
theorem reachable_rankInv (b : Builder) (h : Reachable b) : RankInv b := by
  induction h with
  | entry c v b h =>
    obtain ⟨-, rfl⟩ := append_ok _ _ _ _ h
    simp [RankInv, Builder.add]
  | step b c v b2 hb happ ih =>
    obtain ⟨hpr, rfl⟩ := append_ok _ _ _ _ happ
    rw [RankInv, Builder.add, List.map_append, List.chain'_append]
    refine ⟨ih, by simp, ?_⟩
    intro x hx y hy
    simp only [List.map_cons, List.map_nil, List.head?_cons, Option.mem_def,
      Option.some_inj] at hy
    subst hy
    rw [Option.mem_def, List.getLast?_map, Option.map_eq_some'] at hx
    obtain ⟨s0, hs0, hs0p⟩ := hx
    rw [Builder.isPriorityRight, hs0] at hpr
    have hne : b.selectors ≠ [] := by
      intro hnil
      rw [hnil] at hs0
      exact Option.noConfusion hs0
    simp only [Option.some_bind, Bool.and_eq_false_iff, bne_eq_false_iff_eq,
      List.length_eq_zero] at hpr
    rcases hpr with hnil | hgt
    · exact absurd hnil hne
    · subst hs0p
      cases hx2 : s0.priority with
      | none => simp [rankRel]
      | some p =>
        rw [hx2] at hgt
        simp only [jsGT, decide_eq_false_iff_not, Nat.not_lt] at hgt
        simpa [rankRel, hx2] using hgt
  | comb a b s ha hb iha ihb =>
    simp [RankInv, cssSelectorBuilder.combine, Builder.raw, Builder.add,
      List.chain'_cons, rankRel]
  | render b hb ih =>
    simp [RankInv, Builder.stringify]

/- Running a chain of appends whose ranks never decrease, starting from a
   state whose order check accepts the first rank and whose repeat-checked
   categories do not collide with the list, succeeds and pushes exactly the
   formatted fragments. -/
theorem appendAll_ok (ops : List (Category × String)) (b : Builder)
    (hchain : List.Chain' (fun x y => x ≤ y) (ops.map (fun p => p.1.rank)))
    (hstart : ∀ c v rest, ops = (c, v) :: rest → b.isPriorityRight c.rank = false)
    (huniq : ∀ t : Category, t.hasRepeatCheck = true →
      ops.countP (fun p => p.1 == t) +
        (if b.isSelectorExist t.selType then 1 else 0) ≤ 1) :
    appendAll b ops = (none, ⟨b.selectors ++ ops.map toSel⟩) := by
  induction ops generalizing b with
  | nil => simp [appendAll]
  | cons hd tl ih =>
    obtain ⟨c, v⟩ := hd
    have hrep : (c.hasRepeatCheck && b.isSelectorExist c.selType) = false := by
      by_cases hc : c.hasRepeatCheck = true
      · have hex : b.isSelectorExist c.selType = false := by
          by_cases hbx : b.isSelectorExist c.selType = true
          · exfalso
            have hu := huniq c hc
            rw [List.countP_cons, hbx] at hu
            simp at hu
          · simpa using hbx
        simp [hex]
      · simp only [Bool.not_eq_true] at hc
        simp [hc]
    have hord : b.isPriorityRight c.rank = false := hstart c v tl rfl
    have happ : b.append c v = (none, b.add c.selType (c.format v) (some c.rank)) := by
      rw [append_eq, hrep, hord]
      simp
    have h1 : List.Chain' (fun x y => x ≤ y) (tl.map (fun p => p.1.rank)) := by
      simpa using hchain.tail
    have h2 : ∀ c2 v2 rest2, tl = (c2, v2) :: rest2 →
        (b.add c.selType (c.format v) (some c.rank)).isPriorityRight c2.rank = false := by
      intro c2 v2 rest2 htl
      have hle : c.rank ≤ c2.rank := by
        rw [htl] at hchain
        simp only [List.map_cons, List.chain'_cons] at hchain
        exact hchain.1
      rw [Builder.isPriorityRight, Builder.add]
      simp [List.getLast?_concat, jsGT]
      omega
    have h3 : ∀ t : Category, t.hasRepeatCheck = true →
        tl.countP (fun p => p.1 == t) +
          (if (b.add c.selType (c.format v) (some c.rank)).isSelectorExist t.selType
            then 1 else 0) ≤ 1 := by
      intro t ht
      have hu := huniq t ht
      rw [List.countP_cons] at hu
      have hex2 : (b.add c.selType (c.format v) (some c.rank)).isSelectorExist t.selType =
          (b.isSelectorExist t.selType || (c.selType == t.selType)) := by
        simp [Builder.add, Builder.isSelectorExist, List.any_append]
      by_cases hct : c = t
      · subst hct
        simp only [beq_self_eq_true, if_pos rfl] at hu
        rw [hex2]
        simp only [beq_self_eq_true, Bool.or_true, if_pos rfl]
        omega
      · simp only [hct, if_false] at hu
        simp [hct] at hu
        have hst : (c.selType == t.selType) = false := by
          simp only [beq_eq_false_iff_ne, ne_eq]
          intro heq
          exact hct ((selType_inj c t).mp heq)
        rw [hex2, hst]
        simpa using hu
    rw [appendAll, happ]
    change appendAll (b.add c.selType (c.format v) (some c.rank)) tl = _
    rw [ih (b.add c.selType (c.format v) (some c.rank)) h1 h2 h3]
    simp [Builder.add, toSel]

/-- Claim C1: for every sequence of append operations whose categories are in
non-decreasing rank order (element=1, id=2, class=3, attribute=4,
pseudoClass=5, pseudoElement=6) and which contains at most one element, at
most one id, and at most one pseudoElement, every append succeeds and a
subsequent stringify returns exactly the concatenation of the fragments'
formatted texts in append order (element unprefixed, id prefixed with the
hash sigil, class with the dot, attribute bracketed, pseudo-class with one
colon, pseudo-element with two). -/
theorem claim_C1 (ops : List (Category × String))
    (hchain : List.Chain' (fun x y => x ≤ y) (ops.map (fun p => p.1.rank)))
    (hel : ops.countP (fun p => p.1 == Category.element) ≤ 1)
    (hid : ops.countP (fun p => p.1 == Category.id) ≤ 1)
    (hpe : ops.countP (fun p => p.1 == Category.pseudoElement) ≤ 1) :
    (appendAll (Builder.mk []) ops).1 = none ∧
    (((appendAll (Builder.mk []) ops).2).stringify).1 =
      String.join (ops.map (fun p => p.1.format p.2)) := by
  have huniq : ∀ t : Category, t.hasRepeatCheck = true →
      ops.countP (fun p => p.1 == t) +
        (if (Builder.mk ([] : List Selector)).isSelectorExist t.selType
          then 1 else 0) ≤ 1 := by
    intro t ht
    have hempty : (Builder.mk ([] : List Selector)).isSelectorExist t.selType = false := rfl
    rw [hempty]
    simp only [Bool.false_eq_true, if_false, Nat.add_zero]
    cases t
    case element => exact hel
    case id => exact hid
    case pseudoElement => exact hpe
    all_goals simp [Category.hasRepeatCheck] at ht
  have h := appendAll_ok ops (Builder.mk []) hchain (fun c v rest _ => rfl) huniq
  refine ⟨by rw [h], ?_⟩
  rw [h, stringify_fst]
  simp only [List.nil_append, List.map_map]
  rfl

/-- Claim C1 witness: the six categories appended once each in rank order
produce the selector string with every sigil in place. -/
theorem claim_C1_witness :
    (appendAll (Builder.mk [])
      ([((Category.element), ("a")), ((Category.id), ("main")), ((Category.cls), ("x")),
        ((Category.attr), ("y")), ((Category.pseudoClass), ("p")),
        ((Category.pseudoElement), ("q"))])).1 = none ∧
    (((appendAll (Builder.mk [])
      ([((Category.element), ("a")), ((Category.id), ("main")), ((Category.cls), ("x")),
        ((Category.attr), ("y")), ((Category.pseudoClass), ("p")),
        ((Category.pseudoElement), ("q"))])).2).stringify).1 =
      String.join (([((Category.element), ("a")), ((Category.id), ("main")),
        ((Category.cls), ("x")), ((Category.attr), ("y")), ((Category.pseudoClass), ("p")),
        ((Category.pseudoElement), ("q"))]).map (fun p => p.1.format p.2)) :=
  claim_C1 _ (by simp [List.chain'_cons, Category.rank]) (by decide) (by decide) (by decide)

/- A reachable builder holding an element fragment (rank 1) followed by a
   class fragment (rank 3), used by the C2 theorems. -/
def demoBuilder : Builder :=
  ((((Builder.mk []).element ("a")).2).«class» ("b")).2

/-- Claim C2 counterexample: on the reachable builder holding an element and
a class fragment, appending a second element has rank 1 strictly below the
maximum appended rank 3, yet it fails with RepeatError, not OrderError: the
repeat check runs before the order check. -/
theorem claim_C2_counterexample :
    Reachable demoBuilder ∧
    (∃ s ∈ demoBuilder.selectors, ∃ p : Nat,
      s.priority = some p ∧ Category.element.rank < p) ∧
    (demoBuilder.append Category.element ("c")).1 = some BuilderError.repeatError ∧
    (demoBuilder.append Category.element ("c")).1 ≠ some BuilderError.orderError := by
  refine ⟨Reachable.step _ Category.cls ("b") _
      (Reachable.entry Category.element ("a") _ rfl) rfl,
    ⟨⟨SelType.cls, (".b"), some 3⟩, by decide, 3, rfl, by decide⟩,
    by decide, by decide⟩

/-- Claim C2 (amended): for every builder state reachable through the public
API, appending a ranked category whose rank is strictly less than the
current maximum rank among the already-appended ranked fragments fails with
OrderError — unless the appended category is element, id or pseudoElement
and one is already present, in which case the repeat check fires first and
the call fails with RepeatError instead; and appending a category whose rank
is at least the rank of the last ranked fragment passes the order check. -/
theorem claim_C2_amended (b : Builder) (hb : Reachable b) (c : Category) (v : String) :
    ((c.hasRepeatCheck && b.isSelectorExist c.selType) = true →
      (b.append c v).1 = some BuilderError.repeatError) ∧
    ((c.hasRepeatCheck && b.isSelectorExist c.selType) = false →
      (∃ s ∈ b.selectors, ∃ p : Nat, s.priority = some p ∧ c.rank < p) →
      (b.append c v).1 = some BuilderError.orderError) ∧
    (b.lastRankedPriority.getD 0 ≤ c.rank → b.isPriorityRight c.rank = false) := by
  refine ⟨?_, ?_, orderCheck_passes b c.rank⟩
  · intro h
    rw [append_eq, if_pos h]
  · intro h hex
    obtain ⟨s, hs, p, hp, hgt⟩ := hex
    have hfire := orderCheck_fires b (reachable_rankInv b hb) c.rank s hs p hp hgt
    rw [append_eq]
    simp [h, hfire]

/-- Claim C2 witness: on the reachable element-and-class builder, a second
element is rejected with RepeatError, an id (rank 2, below the maximum rank
3) is rejected with OrderError, and an attribute (rank 4, at least the last
ranked rank 3) passes the order check. -/
theorem claim_C2_witness :
    (demoBuilder.append Category.element ("x")).1 = some BuilderError.repeatError ∧
    (demoBuilder.append Category.id ("y")).1 = some BuilderError.orderError ∧
    demoBuilder.isPriorityRight (Category.attr.rank) = false := by
  have hre : Reachable demoBuilder :=
    Reachable.step _ Category.cls ("b") _
      (Reachable.entry Category.element ("a") _ rfl) rfl
  exact ⟨(claim_C2_amended demoBuilder hre Category.element ("x")).1 (by decide),
    (claim_C2_amended demoBuilder hre Category.id ("y")).2.1 (by decide)
      ⟨⟨SelType.cls, (".b"), some 3⟩, by decide, 3, rfl, by decide⟩,
    (claim_C2_amended demoBuilder hre Category.attr ("z")).2.2 (by decide)⟩

/-- Claim C3: for every builder state, appending a second fragment of
category element, id, or pseudoElement fails with RepeatError, regardless of
what other fragments the builder holds or where the first occurrence is. -/
theorem claim_C3 (b : Builder) (v : String) :
    (b.isSelectorExist SelType.element = true →
      (b.element v).1 = some BuilderError.repeatError) ∧
    (b.isSelectorExist SelType.id = true →
      (b.id v).1 = some BuilderError.repeatError) ∧
    (b.isSelectorExist SelType.pseudoElement = true →
      (b.pseudoElement v).1 = some BuilderError.repeatError) := by
  refine ⟨fun h => ?_, fun h => ?_, fun h => ?_⟩ <;>
    simp [Builder.element, Builder.id, Builder.pseudoElement, h]

/- A builder holding one element, one id and one pseudo-element fragment,
   used by the C3 witness. -/
def c3Builder : Builder :=
  Builder.mk ([⟨SelType.element, ("a"), some 1⟩, ⟨SelType.id, ("#b"), some 2⟩,
    ⟨SelType.pseudoElement, ("::c"), some 6⟩])

/-- Claim C3 witness: on a builder already holding an element, an id and a
pseudo-element, each of the three repeat-checked appends is rejected with
RepeatError. -/
theorem claim_C3_witness :
    ((c3Builder).element ("z")).1 = some BuilderError.repeatError ∧
    ((c3Builder).id ("z")).1 = some BuilderError.repeatError ∧
    ((c3Builder).pseudoElement ("z")).1 = some BuilderError.repeatError :=
  ⟨(claim_C3 c3Builder ("z")).1 (by decide),
    (claim_C3 c3Builder ("z")).2.1 (by decide),
    (claim_C3 c3Builder ("z")).2.2 (by decide)⟩

/-- Claim C4: for every pair of builders and every combinator string, the
builder returned by combine renders to the two operands' rendered strings
joined by the combinator with a single space on each side (so a combinator
that is itself a space yields three spaces). -/
theorem claim_C4 (a : Builder) (c : String) (b : Builder) :
    (((cssSelectorBuilder.combine a c b).1).stringify).1 =
      (a.stringify).1 ++ (" ") ++ c ++ (" ") ++ (b.stringify).1 := by
  simp [cssSelectorBuilder.combine, Builder.raw, Builder.add, Builder.stringify,
    String.empty_append, String.append_assoc]

/-- Claim C5 counterexample: stringify does mutate the builder: a builder
holding one element fragment is not equal to its own state after stringify
(the fragment sequence has been cleared). -/
theorem claim_C5_counterexample :
    (((((Builder.mk []).element ("a")).2).stringify).2) ≠
      (((Builder.mk []).element ("a")).2) := by
  decide

/-- Claim C5 (amended): stringify returns the concatenation of the fragment
texts in sequence order, but as a side effect empties the fragment sequence:
rendering is a one-shot consuming read, not a pure one. -/
theorem claim_C5_amended (b : Builder) :
    (b.stringify).1 = String.join (b.selectors.map Selector.value) ∧
    ((b.stringify).2).selectors = ([] : List Selector) :=
  ⟨stringify_fst b, rfl⟩

/-- Claim C6 counterexample: combine mutates its operands: a builder holding
one element fragment is not equal to its own state after being passed to
combine as the first operand (its fragments were consumed). -/
theorem claim_C6_counterexample :
    ((cssSelectorBuilder.combine (((Builder.mk []).element ("a")).2) ("+")
      (((Builder.mk []).id ("b")).2)).2.1) ≠
      (((Builder.mk []).element ("a")).2) := by
  decide

/-- Claim C6 (amended): combine consumes its operands: after
combine(A, c, B) returns, the fragment sequences of both A and B are empty
(combine renders each operand with the state-clearing stringify), so the
operands are not left unchanged. -/
theorem claim_C6_amended (a : Builder) (c : String) (b : Builder) :
    ((cssSelectorBuilder.combine a c b).2.1).selectors = ([] : List Selector) ∧
    ((cssSelectorBuilder.combine a c b).2.2).selectors = ([] : List Selector) :=
  ⟨rfl, rfl⟩

/-- Claim C7: every failed append is atomic: whenever one of the six ranked
append operations reports RepeatError or OrderError, the builder's fragment
sequence is exactly what it was before the call. -/
theorem claim_C7 (b : Builder) (c : Category) (v : String)
    (h : (b.append c v).1 ≠ none) : (b.append c v).2 = b := by
  rw [append_eq] at h ⊢
  by_cases h1 : (c.hasRepeatCheck && b.isSelectorExist c.selType) = true
  · rw [if_pos h1]
  · rw [if_neg h1] at h ⊢
    by_cases h2 : b.isPriorityRight c.rank = true
    · rw [if_pos h2]
    · rw [if_neg h2] at h
      exact absurd rfl h

/-- Claim C7 witness: a rejected second element append leaves the one-element
fragment sequence untouched. -/
theorem claim_C7_witness :
    ((Builder.mk ([⟨SelType.element, ("a"), some 1⟩])).append Category.element ("b")).2 =
      Builder.mk ([⟨SelType.element, ("a"), some 1⟩]) :=
  claim_C7 _ _ _ (by decide)

/-- Claim C8 counterexample: combine does not validate its combinator: with
the string of two at-signs, which is none of the four combinator tokens, it
raises nothing and produces a builder that renders the operands joined by
the invalid token. -/
theorem claim_C8_counterexample :
    (("@@") ≠ (" ") ∧ ("@@") ≠ ("+") ∧ ("@@") ≠ ("~") ∧ ("@@") ≠ (">")) ∧
    (((cssSelectorBuilder.combine (((Builder.mk []).element ("a")).2) ("@@")
      (((Builder.mk []).id ("b")).2)).1).stringify).1 = ("a @@ #b") := by
  decide

/-- Claim C8 (amended): combine performs no combinator validation: for every
string that is not one of the four combinator tokens, the call still
succeeds and returns a builder rendering the two operands joined by that
string with a space on each side. -/
theorem claim_C8_amended (a : Builder) (c : String) (b : Builder)
    (_h1 : c ≠ (" ")) (_h2 : c ≠ ("+")) (_h3 : c ≠ ("~")) (_h4 : c ≠ (">")) :
    (((cssSelectorBuilder.combine a c b).1).stringify).1 =
      (a.stringify).1 ++ (" ") ++ c ++ (" ") ++ (b.stringify).1 := by
  simp [cssSelectorBuilder.combine, Builder.raw, Builder.add, Builder.stringify,
    String.empty_append, String.append_assoc]

/-- Claim C8 witness: combining with the invalid combinator of two at-signs
still renders the spliced string. -/
theorem claim_C8_witness :
    (((cssSelectorBuilder.combine (((Builder.mk []).element ("a")).2) ("@@")
      (((Builder.mk []).id ("b")).2)).1).stringify).1 =
      ((((Builder.mk []).element ("a")).2).stringify).1 ++ (" ") ++ ("@@") ++ (" ") ++
      ((((Builder.mk []).id ("b")).2).stringify).1 :=
  claim_C8_amended _ _ _ (by decide) (by decide) (by decide) (by decide)

/-- Claim C9: stringify empties the fragment sequence, so a second stringify
call with no appends in between returns the empty string and any fragments
appended before the first stringify are lost. -/
theorem claim_C9 (b : Builder) :
    ((b.stringify).2).selectors = ([] : List Selector) ∧
    (((b.stringify).2).stringify).1 = ("") :=
  ⟨rfl, rfl⟩

/-- Claim C10: a builder returned by combine holds only raw fragments with
no priority, so any single subsequent append of any ranked category,
element, id and pseudoElement included, succeeds: the repeat check matches
no raw fragment and the order check compares against the absent priority of
the last raw fragment. -/
theorem claim_C10 (a : Builder) (s : String) (b : Builder) (c : Category) (v : String) :
    (((cssSelectorBuilder.combine a s b).1).append c v).1 = none := by
  cases c <;>
    simp [cssSelectorBuilder.combine, Builder.raw, Builder.add, Builder.append,
      Builder.element, Builder.id, Builder.«class», Builder.attr, Builder.pseudoClass,
      Builder.pseudoElement, Builder.isSelectorExist, Builder.isPriorityRight, jsGT,
      List.getLast?]

end CssBuilder
